import Mathlib

/-!
Verification of the reminder scheduling and conversation state-machine engine
of `main.py` (a Telegram reminder bot), as a shallow embedding in Lean 4.

Time model for the weekly schedule calculator: instants are seconds counted
from an epoch fixed at a Monday 00:00 wall clock in the configured timezone.
The configured timezone is Asia/Taipei, a fixed UTC+8 offset with no
daylight-saving transitions in the modern era, so Python's wall-clock
`timedelta` arithmetic on aware datetimes coincides with arithmetic on
absolute seconds. 2024-01-01 was a Monday; we use 2024-01-01 00:00 (+08) as
the epoch, so `weekday` and calendar rendering agree with Python.

The single-date flow works on calendar fields directly (Python builds
`datetime(year, month, day, hour, minute)` values and compares them); it is
embedded through the `DT` structure below. Comparison of two timezone-aware
datetimes in the same fixed-offset zone is field-lexicographic, which for
well-formed field values coincides with comparison of the `dtKey` encoding.
-/

namespace TgReminderBot

/-! ## Weekly schedule calculator -/

/-- Weekday of an instant, as Python's `datetime.weekday()`:
0 = Monday .. 6 = Sunday, under the Monday-midnight epoch. -/
def weekdayOf (n : Nat) : Nat := n / 86400 % 7

/-- Seconds since midnight of the instant's day: its time of day. -/
def timeOfDayOf (n : Nat) : Nat := n % 86400

/-- Weekly next-occurrence computation, inlined in `finalize_general_cycle`
(`days_ahead = (wd - now.weekday()) % 7`;
`run_at = datetime(now.year, now.month, now.day, hour, minute, tzinfo=TZ)
+ timedelta(days=days_ahead)`; `if run_at <= now: run_at += timedelta(days=7)`)
and repeated verbatim in `finalize_apk_schedule`. Python `%` on ints is
mathematical modulus, i.e. `Int.emod`; "today at (hour, minute)" is
`now - now % 86400 + 3600 * h + 60 * mi` on the seconds timeline. -/
def next_occurrence (wd h mi now : Nat) : Nat :=
  let days_ahead : Nat := (((wd : Int) - (weekdayOf now : Int)) % 7).toNat
  let run_at : Nat := now - now % 86400 + 3600 * h + 60 * mi + 86400 * days_ahead
  if run_at ≤ now then run_at + 7 * 86400 else run_at

/-! ## Calendar arithmetic (Python `datetime` validity and ordering) -/

/-- Gregorian leap-year rule, as implemented by Python's `datetime`. -/
def isLeap (y : Nat) : Bool := (y % 4 == 0 && y % 100 != 0) || y % 400 == 0

/-- Days in a month of a given year, as enforced by `datetime`'s validation. -/
def daysInMonth (y m : Nat) : Nat :=
  if m = 2 then (if isLeap y then 29 else 28)
  else if m = 4 ∨ m = 6 ∨ m = 9 ∨ m = 11 then 30 else 31

/-- `datetime(y, m, d, ...)` succeeds exactly when this holds (year range
limits aside, which no claim touches). -/
def validDate (y m d : Nat) : Prop :=
  1 ≤ m ∧ m ≤ 12 ∧ 1 ≤ d ∧ d ≤ daysInMonth y m

instance validDate.decidable (y m d : Nat) : Decidable (validDate y m d) := by
  unfold validDate; infer_instance

/-- A calendar datetime value, the fields of a Python `datetime` (microseconds
are never used by the program and are omitted). -/
structure DT where
  year : Nat
  month : Nat
  day : Nat
  hour : Nat
  minute : Nat
  sec : Nat
deriving Repr, DecidableEq

/-- Mixed-radix encoding of a `DT`. For well-formed field values (month < 13,
day < 32, hour < 24, minute < 60, sec < 60) comparing keys is exactly Python's
comparison of two aware datetimes in the one configured fixed-offset zone. -/
def dtKey (t : DT) : Nat :=
  ((((t.year * 13 + t.month) * 32 + t.day) * 24 + t.hour) * 60 + t.minute) * 60 + t.sec

/-- Field bounds that every Python-constructed `datetime` satisfies. -/
def wfDT (t : DT) : Prop :=
  1 ≤ t.month ∧ t.month ≤ 12 ∧ 1 ≤ t.day ∧ t.day ≤ 31 ∧
  t.hour ≤ 23 ∧ t.minute ≤ 59 ∧ t.sec ≤ 59

instance wfDT.decidable (t : DT) : Decidable (wfDT t) := by
  unfold wfDT; infer_instance

/-- Single-date fire-time computation, inlined in `single_date_got_text`:
`year = now.year; run_at = datetime(year, month, day, hour, minute, tzinfo=TZ)`
(raises `ValueError` when `(month, day)` is invalid for `year` — the
construction is OUTSIDE the function's `try` block);
`if run_at <= now: run_at = datetime(year + 1, month, day, hour, minute, tzinfo=TZ)`
(again raising when invalid for `year + 1`). An escaping exception is the
`Except.error` case. -/
def next_occurrence_for_date (m d h mi : Nat) (now : DT) : Except Unit DT :=
  if validDate now.year m d then
    let run_at : DT := ⟨now.year, m, d, h, mi, 0⟩
    if dtKey run_at ≤ dtKey now then
      if validDate (now.year + 1) m d then Except.ok ⟨now.year + 1, m, d, h, mi, 0⟩
      else Except.error ()
    else Except.ok run_at
  else Except.error ()

/-! ## Time parser -/

/-- Python `int(...)` applied to a string of decimal digit characters.
Inputs are modeled over the ASCII alphabet: `str.isdigit` and `int` then agree
with `Char.isDigit` and this decoding. -/
def natOfDigits (cs : List Char) : Nat :=
  cs.foldl (fun n c => 10 * n + (c.toNat - 48)) 0

/-- Python `str.strip()`: remove leading and trailing whitespace. -/
def pyStrip (cs : List Char) : List Char :=
  ((cs.dropWhile Char.isWhitespace).reverse.dropWhile Char.isWhitespace).reverse

/-- `parse_mmdd` (main.py): `text = text.strip()`;
`if len(text) != 4 or not text.isdigit(): return None`;
`month = int(text[:2]); day = int(text[2:])`;
`try: datetime(2000, month, day) except ValueError: return None`;
`return month, day`. The reference year 2000 is a leap year. -/
def parse_mmdd (s : String) : Option (Nat × Nat) :=
  let t : List Char := pyStrip s.data
  if t.length ≠ 4 ∨ ¬ t.all Char.isDigit then none
  else
    let month := natOfDigits (t.take 2)
    let day := natOfDigits (t.drop 2)
    if validDate 2000 month day then some (month, day) else none

/-! ## Calendar rendering (strftime) -/

/-- Zero-padded 2-digit rendering, as `%02d`. -/
def pad2 (n : Nat) : String := if n < 10 then "0" ++ toString n else toString n

/-- Length of a year in days. -/
def daysInYear (y : Nat) : Nat := if isLeap y then 366 else 365

/-- Resolve a day count (days since the 2024-01-01 epoch) to (year, day-of-year);
fuel-driven so it computes by kernel reduction. Each step consumes at least 365
days, so `days + 1` fuel always suffices. -/
def yearFromFuel : Nat → Nat → Nat → Nat × Nat
  | 0, y, days => (y, days)
  | fuel + 1, y, days =>
      if days < daysInYear y then (y, days)
      else yearFromFuel fuel (y + 1) (days - daysInYear y)

/-- Resolve a day-of-year to (month, day-of-month index); 12 months of fuel. -/
def monthFromFuel : Nat → Nat → Nat → Nat → Nat × Nat
  | 0, _, m, days => (m, days)
  | fuel + 1, y, m, days =>
      if 12 ≤ m then (m, days)
      else if days < daysInMonth y m then (m, days)
      else monthFromFuel fuel y (m + 1) (days - daysInMonth y m)

/-- `run_at.strftime("%m/%d")` on the seconds timeline (epoch 2024-01-01,
a Monday, in the configured fixed-offset timezone). -/
def strftime_mmdd (n : Nat) : String :=
  let p1 := yearFromFuel (n / 86400 + 1) 2024 (n / 86400)
  let p2 := monthFromFuel 12 p1.1 1 p1.2
  pad2 p2.1 ++ "/" ++ pad2 (p2.2 + 1)

/-- `run_at.strftime("%m/%d %H:%M")` on a calendar datetime. -/
def fmt_mmdd_hhmm (t : DT) : String :=
  pad2 t.month ++ "/" ++ pad2 t.day ++ " " ++ pad2 t.hour ++ ":" ++ pad2 t.minute

/-- Days from the 2024-01-01 epoch to the start of year `2024 + k`. -/
def daysFromEpochToYear : Nat → Nat
  | 0 => 0
  | k + 1 => daysFromEpochToYear k + daysInYear (2024 + k)

/-- Days from the start of year `y` to the start of its month `m`. -/
def daysBeforeMonth (y : Nat) : Nat → Nat
  | 0 => 0
  | m + 1 => if m = 0 then 0 else daysBeforeMonth y m + daysInMonth y m

/-- `int(run_at.timestamp())` for a calendar datetime at or after the epoch:
the value `db_add_reminder` persists in the `run_at` column. -/
def dtToSecs (t : DT) : Nat :=
  (daysFromEpochToYear (t.year - 2024) + daysBeforeMonth t.year t.month + (t.day - 1)) * 86400
    + 3600 * t.hour + 60 * t.minute + t.sec

/-! ## Reminder store and mention directory (SQLite tables)

The `reminders` table is `(id INTEGER PRIMARY KEY AUTOINCREMENT, chat_id, kind,
run_at, text)`; the `people` table is `(id INTEGER PRIMARY KEY AUTOINCREMENT,
chat_id, tg_id, nickname)` — note: no uniqueness constraint of any kind on
`(chat_id, tg_id)`. AUTOINCREMENT is modeled by a monotone next-id counter;
rows are kept in insertion order, which is ascending id order. -/

/-- A row of the `people` table. -/
structure Person where
  id : Nat
  chat_id : Int
  tg_id : String
  nickname : String
deriving Repr, DecidableEq

/-- A row of the `reminders` table. -/
structure Reminder where
  id : Nat
  chat_id : Int
  kind : String
  run_at : Nat
  text : String
deriving Repr, DecidableEq

/-- The SQLite database contents. -/
structure Db where
  reminders : List Reminder
  people : List Person
  nextReminderId : Nat
  nextPersonId : Nat
deriving Repr, DecidableEq

/-- `db_add_reminder`: INSERT returning `lastrowid`. -/
def db_add_reminder (db : Db) (chat : Int) (kind : String) (run_at : Nat)
    (text : String) : Nat × Db :=
  let rid := db.nextReminderId
  (rid, { db with reminders := db.reminders ++ [⟨rid, chat, kind, run_at, text⟩],
                  nextReminderId := rid + 1 })

/-- `db_get_reminder`: SELECT ... WHERE id=?, `fetchone`. -/
def db_get_reminder (db : Db) (rid : Nat) : Option Reminder :=
  db.reminders.find? (fun r => r.id == rid)

/-- `db_delete_reminder`: DELETE FROM reminders WHERE id=? (a no-op when no
row has that id). -/
def db_delete_reminder (db : Db) (rid : Nat) : Db :=
  { db with reminders := db.reminders.filter (fun r => r.id != rid) }

/-- Insertion into a list sorted by `run_at` ascending. -/
def insertByRunAt (r : Reminder) : List Reminder → List Reminder
  | [] => [r]
  | x :: xs => if r.run_at ≤ x.run_at then r :: x :: xs else x :: insertByRunAt r xs

/-- Sort rows by `run_at` ascending. -/
def sortByRunAt : List Reminder → List Reminder
  | [] => []
  | r :: rs => insertByRunAt r (sortByRunAt rs)

/-- `db_list_reminders`: SELECT ... WHERE chat_id=? ORDER BY run_at ASC. -/
def db_list_reminders (db : Db) (chat : Int) : List Reminder :=
  sortByRunAt (db.reminders.filter (fun r => r.chat_id == chat))

/-- `db_list_people`: SELECT ... WHERE chat_id=? ORDER BY id ASC (rows are
kept in ascending-id insertion order, so the filter preserves that order). -/
def db_list_people (db : Db) (chat : Int) : List Person :=
  db.people.filter (fun p => p.chat_id == chat)

/-- `db_delete_person`: DELETE FROM people WHERE id=?. -/
def db_delete_person (db : Db) (pid : Nat) : Db :=
  { db with people := db.people.filter (fun p => p.id != pid) }

/-- The rows `executemany("INSERT INTO people ...")` creates: one fresh row per
pair, ids assigned sequentially, regardless of any existing row with the same
`(chat_id, tg_id)`. -/
def mkPeopleRows (nextId : Nat) (chat : Int) : List (String × String) → List Person
  | [] => []
  | (tg, nick) :: rest => ⟨nextId, chat, tg, nick⟩ :: mkPeopleRows (nextId + 1) chat rest

/-- The fold performing those inserts. -/
def insertPeople (chat : Int) : List (String × String) → Db → Db
  | [], db => db
  | (tg, nick) :: rest, db =>
      insertPeople chat rest
        { db with people := db.people ++ [⟨db.nextPersonId, chat, tg, nick⟩],
                  nextPersonId := db.nextPersonId + 1 }

/-- `db_add_people_batch`: `if not pairs: return 0`, else `executemany` INSERT
and return `cur.rowcount` (= the number of pairs). -/
def db_add_people_batch (db : Db) (chat : Int) (pairs : List (String × String)) :
    Nat × Db :=
  match pairs with
  | [] => (0, db)
  | _ => (pairs.length, insertPeople chat pairs db)

/-! ## Scheduler (python-telegram-bot JobQueue) and process state -/

/-- The ad hoc dict payload handed to `job_queue.run_once`. -/
structure JobData where
  chat_id : Int
  text : String
  when_str : String
  reminder_id : Option Nat
deriving Repr, DecidableEq

/-- An armed `run_once` entry: its name, its fire instant, its payload. -/
structure Job where
  name : String
  fireAt : Nat
  data : JobData
deriving Repr, DecidableEq

/-- Whole-process state: the durable store, the armed job entries, and the
sequence of outbound chat messages `(chat_id, text)`. -/
structure BotState where
  db : Db
  jobs : List Job
  outbox : List (Int × String)
deriving Repr, DecidableEq

/-- The empty process state over a fresh database. -/
def stEmpty : BotState := ⟨⟨[], [], 1, 1⟩, [], []⟩

/-- The message `reminder_job` sends. -/
def remMsgText (when_str text : String) : String :=
  "⏰ 提醒時間到囉（" ++ when_str ++ "）：\n" ++ text

/-- `reminder_job` (main.py, new revision): read the payload, send the reminder
message, then `db_delete_reminder(reminder_id)` if a reminder id is present
(its exception swallowed by `try/except`). It performs NO re-read of the row,
NO absence check before sending, and NO rescheduling for any kind. -/
def reminder_job (st : BotState) (d : JobData) : BotState :=
  let st1 : BotState :=
    { st with outbox := st.outbox ++ [(d.chat_id, remMsgText d.when_str d.text)] }
  match d.reminder_id with
  | some rid => { st1 with db := db_delete_reminder st1.db rid }
  | none => st1

/-- The JobQueue firing an armed `run_once` entry: the entry is consumed and
its callback `reminder_job` runs with its payload. -/
def fireJob (st : BotState) (j : Job) : BotState :=
  reminder_job { st with jobs := st.jobs.erase j } j.data

/-! ## Conversation state constants (from `range(17)` in main.py) -/

/-- Conversation state `MENU` (= 0). -/
def MENU : Nat := 0

/-- Conversation state `SD_TEXT` (= 4). -/
def SD_TEXT : Nat := 4

/-! ## Finalize steps -/

/-- Weekday labels `["一","二","三","四","五","六","日"]` indexed by weekday. -/
def weekLabel (wd : Nat) : String :=
  match wd with
  | 0 => "一" | 1 => "二" | 2 => "三" | 3 => "四" | 4 => "五" | 5 => "六" | _ => "日"

/-- The stored body built by `finalize_general_cycle` for one weekday
(the mention block is baked in at creation when non-empty). -/
def genFinalText (wd : Nat) (text mention_str : String) : String :=
  let base := "【固定週期｜週" ++ weekLabel wd ++ "】" ++ text
  if mention_str = "" then base else base ++ "\n" ++ mention_str

/-- The stored body built by `finalize_apk_schedule` for one weekday. -/
def apkFinalText (mmdd : String) (wd : Nat) (text mention_str : String) : String :=
  let base := "【" ++ mmdd ++ "】【谷歌】【PROD】本周" ++ weekLabel wd
    ++ "APK更新-紀錄單\n" ++ text
  if mention_str = "" then base else base ++ "\n" ++ mention_str

/-- The `@`-mention block both finalize steps compute: the `tg_id`s of the
chat's people whose id was toggled, joined by newlines. (Python skips the
DB read when no id is toggled; the resulting string is "" either way.) -/
def mentionStr (db : Db) (chat : Int) (mention_ids : List Nat) : String :=
  String.intercalate "\n"
    (((db_list_people db chat).filter (fun p => mention_ids.contains p.id)).map
      (fun p => p.tg_id))

/-- The per-weekday loop of `finalize_general_cycle`: compute `run_at` by the
weekly roll-forward, insert a `general_cycle` row, and arm a `run_once` job
named `reminder-<id>` carrying the payload dict. Returns `created` and the
updated state. -/
def genCycleLoop (chat : Int) (h mi now : Nat) (text mention_str : String) :
    List Nat → BotState → Nat × BotState
  | [], st => (0, st)
  | wd :: rest, st =>
      let run_at := next_occurrence wd h mi now
      let final_text := genFinalText wd text mention_str
      let add := db_add_reminder st.db chat "general_cycle" run_at final_text
      let job : Job := ⟨"reminder-" ++ toString add.1, run_at,
                        ⟨chat, final_text, strftime_mmdd run_at, some add.1⟩⟩
      let res := genCycleLoop chat h mi now text mention_str rest ⟨add.2, st.jobs ++ [job], st.outbox⟩
      (res.1 + 1, res.2)

/-- `finalize_general_cycle` (main.py): scratch fields are read with
`user_data.get`; a missing `gen_time` makes `hour, minute = None` raise
`TypeError` (modeled as `Except.error`); a missing `gen_text` renders as the
literal string "None" inside the f-string. On success every selected weekday
gets its own row and armed job, then the confirmation and the main menu are
sent. -/
def finalize_general_cycle (chat : Int) (weekdays : List Nat)
    (gen_time : Option (Nat × Nat)) (gen_text : Option String)
    (mention_ids : List Nat) (now : Nat) (st : BotState) : Except String BotState :=
  match gen_time with
  | none => Except.error "TypeError"
  | some (h, mi) =>
      let text := match gen_text with | some t => t | none => "None"
      let ms := mentionStr st.db chat mention_ids
      let res := genCycleLoop chat h mi now text ms weekdays st
      Except.ok { res.2 with outbox := res.2.outbox ++
        [(chat, "✅ 已建立 " ++ toString res.1 ++ " 個固定週期提醒"),
         (chat, "請選擇功能：")] }

/-- The per-weekday loop of `finalize_apk_schedule`: identical shape, but the
kind is `apk`, the body uses the APK template, and the armed job is named
`apk-<id>_<wd>` — NOT `reminder-<id>`. -/
def apkLoop (chat : Int) (h mi now : Nat) (text mention_str : String) :
    List Nat → BotState → Nat × BotState
  | [], st => (0, st)
  | wd :: rest, st =>
      let run_at := next_occurrence wd h mi now
      let mmdd := strftime_mmdd run_at
      let final_text := apkFinalText mmdd wd text mention_str
      let add := db_add_reminder st.db chat "apk" run_at final_text
      let job : Job := ⟨"apk-" ++ toString add.1 ++ "_" ++ toString wd, run_at,
                        ⟨chat, final_text, mmdd, some add.1⟩⟩
      let res := apkLoop chat h mi now text mention_str rest ⟨add.2, st.jobs ++ [job], st.outbox⟩
      (res.1 + 1, res.2)

/-- `finalize_apk_schedule` (main.py): same scratch handling as the general
cycle finalize (missing `apk_time` raises `TypeError`). -/
def finalize_apk_schedule (chat : Int) (weekdays : List Nat)
    (apk_time : Option (Nat × Nat)) (apk_text : Option String)
    (mention_ids : List Nat) (now : Nat) (st : BotState) : Except String BotState :=
  match apk_time with
  | none => Except.error "TypeError"
  | some (h, mi) =>
      let text := match apk_text with | some t => t | none => "None"
      let ms := mentionStr st.db chat mention_ids
      let res := apkLoop chat h mi now text ms weekdays st
      Except.ok { res.2 with outbox := res.2.outbox ++
        [(chat, "✅ 已建立 " ++ toString res.1 ++ " 個 APK 每週提醒"),
         (chat, "請選擇功能：")] }

/-- The "internal state lost" reply of `single_date_got_text`. -/
def internalLostMsg : String := "內部資料遺失，請重新從 /start 開始設定一次 🙏"

/-- `single_date_got_text` (main.py): empty body re-prompts and stays in
`SD_TEXT`; missing `sd_date`/`sd_time` scratch is guarded and replies
`internalLostMsg` returning `MENU`; otherwise the fire time is computed (a
`ValueError` from an invalid date propagates — the construction is outside the
`try`), the row is inserted, a job named `reminder-<id>` is armed, and the
confirmation plus main menu are sent, returning `MENU`. -/
def single_date_got_text (chat : Int) (content : String)
    (sd_date sd_time : Option (Nat × Nat)) (now : DT) (st : BotState) :
    Except String (BotState × Nat) :=
  let cs : List Char := pyStrip content.data
  if cs = [] then
    Except.ok ({ st with outbox :=
      st.outbox ++ [(chat, "提醒內容不能是空的，請再輸入一次。")] }, SD_TEXT)
  else
    match sd_date, sd_time with
    | some (month, day), some (hour, minute) =>
        match next_occurrence_for_date month day hour minute now with
        | Except.error _ => Except.error "ValueError"
        | Except.ok run_at =>
            let c : String := String.mk cs
            let when_str := fmt_mmdd_hhmm run_at
            let add := db_add_reminder st.db chat "general_single" (dtToSecs run_at) c
            let job : Job := ⟨"reminder-" ++ toString add.1, dtToSecs run_at,
                              ⟨chat, c, when_str, some add.1⟩⟩
            Except.ok (⟨add.2, st.jobs ++ [job],
              st.outbox ++ [(chat, "✅ 已記錄 " ++ when_str ++ " 提醒"),
                            (chat, "還需要我幫你設什麼提醒嗎？")]⟩, MENU)
    | _, _ =>
        Except.ok ({ st with outbox := st.outbox ++ [(chat, internalLostMsg)] }, MENU)

/-! ## Reminder-list and people-list delete handlers -/

/-- The text of the reminder-list screen `send_reminder_list` sends (button
rows are keyboard markup, not message text). -/
def renderReminderList (db : Db) (chat : Int) : String :=
  if (db_list_reminders db chat).isEmpty then
    "【所有提醒列表】\n目前這個聊天室還沒有任何提醒～"
  else
    "【所有提醒列表】\n點選下面任一項目，可以查看或刪除提醒："

/-- The `reminder_delete_<id>` branch of `reminder_list_callback`: delete the
DB row first, then cancel every armed job named `reminder-<id>` (and ONLY that
name), reply, and re-send the list. The issuing chat id is used only for the
outbound replies; the handler stays in `REMINDER_LIST`. -/
def reminder_delete_action (chat : Int) (rid : Nat) (st : BotState) : BotState :=
  let db1 := db_delete_reminder st.db rid
  let jobs1 := st.jobs.filter (fun j => j.name != "reminder-" ++ toString rid)
  ⟨db1, jobs1,
   st.outbox ++ [(chat, "✅ 已刪除這筆提醒。"), (chat, renderReminderList db1 chat)]⟩

/-- The text of the people-delete screen `people_delete_show_list` sends. -/
def renderPeopleDeleteList (db : Db) (chat : Int) : String :=
  if (db_list_people db chat).isEmpty then
    "【人員名單編輯 ➜ 刪除】\n目前沒有任何名單可以刪除～"
  else
    "【人員名單編輯 ➜ 刪除】\n請點選要刪除的人員："

/-- The `people_del_<id>` branch of `people_delete_callback`: delete the row,
reply, re-send the list; the issuing chat id is used only for the outbound
replies; the handler stays in `PEOPLE_DELETE`. -/
def people_del_action (chat : Int) (pid : Nat) (st : BotState) : BotState :=
  let db1 := db_delete_person st.db pid
  ⟨db1, st.jobs,
   st.outbox ++ [(chat, "✅ 已刪除這位人員。"), (chat, renderPeopleDeleteList db1 chat)]⟩

/-! ## Process start -/

/-- `init_db`: `CREATE TABLE IF NOT EXISTS` for both tables — existing rows
are untouched. -/
def init_db (db : Db) : Db := db

/-- The startup sequence of `main` / `run_bot` (main.py): `init_db()`, build
the application (whose job queue starts empty), register the conversation
handlers, start polling. No code path in `main` or `run_bot` reads the
`reminders` table or arms any job. -/
def startup (db : Db) : BotState := ⟨init_db db, [], []⟩

/-! # Theorems -/

/-- Every month length is at most 31. -/
theorem daysInMonth_le_31 (y m : Nat) : daysInMonth y m ≤ 31 := by
  unfold daysInMonth
  split
  · split <;> omega
  · split <;> omega

/-- The three single-call properties of `next_occurrence`: strictly in the
future, lands on the requested weekday, and carries the requested time of day. -/
theorem next_occurrence_props (wd h mi now : Nat)
    (hw : wd ≤ 6) (hh : h ≤ 23) (hm : mi ≤ 59) :
    now < next_occurrence wd h mi now ∧
    weekdayOf (next_occurrence wd h mi now) = wd ∧
    timeOfDayOf (next_occurrence wd h mi now) = 3600 * h + 60 * mi := by
  simp only [next_occurrence, weekdayOf, timeOfDayOf]
  split <;> omega

/-- C5: for every weekday `wd ≤ 6` and valid time, `next_occurrence` returns an
instant strictly after `now`, on weekday `wd`, at time of day `(h, mi)`, and
re-applying it at the returned instant lands exactly 7 days later. -/
theorem C5_next_occurrence_correct (wd h mi now : Nat)
    (hw : wd ≤ 6) (hh : h ≤ 23) (hm : mi ≤ 59) :
    now < next_occurrence wd h mi now ∧
    weekdayOf (next_occurrence wd h mi now) = wd ∧
    timeOfDayOf (next_occurrence wd h mi now) = 3600 * h + 60 * mi ∧
    next_occurrence wd h mi (next_occurrence wd h mi now) =
      next_occurrence wd h mi now + 7 * 86400 := by
  obtain ⟨h1, h2, h3⟩ := next_occurrence_props wd h mi now hw hh hm
  refine ⟨h1, h2, h3, ?_⟩
  set N := next_occurrence wd h mi now with hN
  simp only [weekdayOf] at h2
  simp only [timeOfDayOf] at h3
  simp only [next_occurrence, weekdayOf]
  split <;> omega

/-- Witness for C5 at `wd = 2`, `09:30`, `now = 123456`. -/
theorem C5_next_occurrence_correct_witness :
    2 ≤ 6 ∧ 9 ≤ 23 ∧ 30 ≤ 59 ∧
    (123456 < next_occurrence 2 9 30 123456 ∧
     weekdayOf (next_occurrence 2 9 30 123456) = 2 ∧
     timeOfDayOf (next_occurrence 2 9 30 123456) = 3600 * 9 + 60 * 30 ∧
     next_occurrence 2 9 30 (next_occurrence 2 9 30 123456) =
       next_occurrence 2 9 30 123456 + 7 * 86400) :=
  ⟨by decide, by decide, by decide,
   C5_next_occurrence_correct 2 9 30 123456 (by decide) (by decide) (by decide)⟩

/-- C6 counterexample: `parse_mmdd` accepts `"0229"` (validated against the
leap reference year 2000), yet the single-date computation at a moment in the
non-leap year 2025 raises `ValueError` (`Except.error`) instead of using next
year: the claim's "uses next year rather than failing" is false. -/
theorem C6_counterexample :
    parse_mmdd "0229" = some (2, 29) ∧
    next_occurrence_for_date 2 29 9 0 ⟨2025, 10, 12, 12, 0, 0⟩ = Except.error () := by
  exact ⟨rfl, rfl⟩

/-- C6 amended: when `(m, d)` is a valid date of the current year, the
computation returns the current-year instant if it is still ahead of `now`,
else the next-year instant provided `(m, d)` is also valid next year (otherwise
it raises); every returned instant is strictly after `now`. -/
theorem C6_single_date_roll_forward (m d h mi : Nat) (now : DT)
    (hfw : wfDT now) (hh : h ≤ 23) (hm : mi ≤ 59)
    (hv : validDate now.year m d) :
    (¬ dtKey ⟨now.year, m, d, h, mi, 0⟩ ≤ dtKey now →
      next_occurrence_for_date m d h mi now = Except.ok ⟨now.year, m, d, h, mi, 0⟩) ∧
    (dtKey ⟨now.year, m, d, h, mi, 0⟩ ≤ dtKey now → validDate (now.year + 1) m d →
      next_occurrence_for_date m d h mi now = Except.ok ⟨now.year + 1, m, d, h, mi, 0⟩) ∧
    (∀ r, next_occurrence_for_date m d h mi now = Except.ok r → dtKey now < dtKey r) := by
  obtain ⟨y, mo, dy, hr, mn, sc⟩ := now
  simp only [wfDT] at hfw
  have h31 : daysInMonth y m ≤ 31 := daysInMonth_le_31 y m
  have h31b : daysInMonth (y + 1) m ≤ 31 := daysInMonth_le_31 (y + 1) m
  by_cases hle : dtKey ⟨y, m, d, h, mi, 0⟩ ≤ dtKey ⟨y, mo, dy, hr, mn, sc⟩
  · by_cases hv2 : validDate (y + 1) m d
    · refine ⟨fun hc => absurd hle hc, fun _ _ => ?_, fun r hr => ?_⟩
      · simp only [next_occurrence_for_date, if_pos hv, if_pos hle, if_pos hv2]
      · simp only [next_occurrence_for_date, if_pos hv, if_pos hle, if_pos hv2,
          Except.ok.injEq] at hr
        subst hr
        obtain ⟨hm1, hm2, hd1, hd2⟩ := hv2
        simp only [dtKey] at hle ⊢
        omega
    · refine ⟨fun hc => absurd hle hc, fun _ hc => absurd hc hv2, fun r hr => ?_⟩
      simp only [next_occurrence_for_date, if_pos hv, if_pos hle, if_neg hv2] at hr
      exact absurd hr (by simp)
  · refine ⟨fun _ => ?_, fun hc => absurd hc hle, fun r hr => ?_⟩
    · simp only [next_occurrence_for_date, if_pos hv, if_neg hle]
    · simp only [next_occurrence_for_date, if_pos hv, if_neg hle,
        Except.ok.injEq] at hr
      subst hr
      omega

/-- Witness for C6 amended at `12/01 09:30`, `now = 2025-01-15 12:00:00`. -/
theorem C6_single_date_roll_forward_witness :
    wfDT ⟨2025, 1, 15, 12, 0, 0⟩ ∧ 9 ≤ 23 ∧ 30 ≤ 59 ∧
    validDate (DT.year ⟨2025, 1, 15, 12, 0, 0⟩) 12 1 ∧
    ((¬ dtKey ⟨2025, 12, 1, 9, 30, 0⟩ ≤ dtKey ⟨2025, 1, 15, 12, 0, 0⟩ →
       next_occurrence_for_date 12 1 9 30 ⟨2025, 1, 15, 12, 0, 0⟩ =
         Except.ok ⟨2025, 12, 1, 9, 30, 0⟩) ∧
     (dtKey ⟨2025, 12, 1, 9, 30, 0⟩ ≤ dtKey ⟨2025, 1, 15, 12, 0, 0⟩ →
       validDate 2026 12 1 →
       next_occurrence_for_date 12 1 9 30 ⟨2025, 1, 15, 12, 0, 0⟩ =
         Except.ok ⟨2026, 12, 1, 9, 30, 0⟩) ∧
     (∀ r, next_occurrence_for_date 12 1 9 30 ⟨2025, 1, 15, 12, 0, 0⟩ = Except.ok r →
       dtKey ⟨2025, 1, 15, 12, 0, 0⟩ < dtKey r)) :=
  ⟨by decide, by decide, by decide, by decide,
   C6_single_date_roll_forward 12 1 9 30 ⟨2025, 1, 15, 12, 0, 0⟩
     (by decide) (by decide) (by decide) (by decide)⟩

/-- C7 counterexample: `" 1201"` is a 5-character string, not a 4-ASCII-digit
token, yet `parse_mmdd` strips whitespace first and returns `(12, 1)` instead
of the invalid sentinel: "returns the invalid sentinel for every other string"
is false as stated. -/
theorem C7_counterexample :
    parse_mmdd " 1201" = some (12, 1) ∧ " 1201".length = 5 := by
  exact ⟨rfl, rfl⟩

/-- C7 amended: with the whitespace-stripping made explicit, `parse_mmdd s`
returns `(m, d)` exactly when the stripped string is 4 digit characters whose
first two decode to `m`, last two to `d`, with `(m, d)` a valid date of the
reference leap year 2000; it returns the sentinel `none` for every other
string, and is total (no exception can escape). -/
theorem C7_parse_mmdd_spec (s : String) (m d : Nat) :
    parse_mmdd s = some (m, d) ↔
      ((pyStrip s.data).length = 4 ∧ (∀ c ∈ pyStrip s.data, c.isDigit = true) ∧
       m = natOfDigits ((pyStrip s.data).take 2) ∧
       d = natOfDigits ((pyStrip s.data).drop 2) ∧
       validDate 2000 m d) := by
  constructor
  · intro hsome
    simp only [parse_mmdd] at hsome
    split at hsome
    · exact absurd hsome (by simp)
    · rename_i hcond
      push_neg at hcond
      obtain ⟨hlen, hall⟩ := hcond
      split at hsome
      · rename_i hvd
        simp only [Option.some.injEq, Prod.mk.injEq] at hsome
        obtain ⟨hm, hd⟩ := hsome
        subst hm
        subst hd
        exact ⟨hlen, List.all_eq_true.mp hall, rfl, rfl, hvd⟩
      · exact absurd hsome (by simp)
  · rintro ⟨h1, h2, h3, h4, h5⟩
    subst h3
    subst h4
    have hall : (pyStrip s.data).all Char.isDigit := List.all_eq_true.mpr h2
    simp only [parse_mmdd]
    rw [if_neg (by push_neg; exact ⟨h1, hall⟩), if_pos h5]

/-- C1: evaluating the code at the failing input. A `general_cycle` reminder is
created for Monday 09:00 (one row, one armed job named `reminder-1`); when the
armed job fires, `reminder_job` sends the message and deletes the fired row —
it inserts NO new row at `fire_at + 7 days` and arms NO new job, so the store
ends empty: the claimed delete-and-re-insert does not happen. -/
theorem C1_recurring_not_rearmed :
    (finalize_general_cycle 1 [0] (some (9, 0)) (some "standup") [] 0 stEmpty).map
        (fun s =>
          ((fireJob s (s.jobs.headD ⟨"", 0, ⟨0, "", "", none⟩⟩)).db.reminders,
           (fireJob s (s.jobs.headD ⟨"", 0, ⟨0, "", "", none⟩⟩)).jobs))
      = Except.ok ([], []) := by
  rfl

/-- C2 counterexample: starting the process over a store holding a past-due
reminder arms no scheduler entry and fires nothing — the row merely survives in
the table. The claimed recovery pass does not exist. -/
theorem C2_counterexample :
    (startup ⟨[⟨1, 7, "general_single", 100, "past due"⟩], [], 2, 1⟩).jobs = [] ∧
    (startup ⟨[⟨1, 7, "general_single", 100, "past due"⟩], [], 2, 1⟩).db.reminders
      = [⟨1, 7, "general_single", 100, "past due"⟩] ∧
    (startup ⟨[⟨1, 7, "general_single", 100, "past due"⟩], [], 2, 1⟩).outbox = [] :=
  ⟨rfl, rfl, rfl⟩

/-- C2 amended: on process start the program only creates the tables if absent
and begins accepting input; it enumerates no persisted reminders, arms no
scheduler entry and sends nothing, so pending reminders do not fire after a
restart (their rows merely remain in the store). -/
theorem C2_startup_arms_nothing (db : Db) : startup db = ⟨db, [], []⟩ := rfl

/-- C3 counterexample: the reminder row with id 1 is absent from the store
(deleted while its job was armed), yet executing the job still sends the
outbound message built from the armed payload — not the claimed silent no-op. -/
theorem C3_counterexample :
    db_get_reminder (⟨[], [], 2, 1⟩ : Db) 1 = none ∧
    (reminder_job ⟨⟨[], [], 2, 1⟩, [], []⟩ ⟨9, "pay rent", "12/01", some 1⟩).outbox
      = [(9, remMsgText "12/01" "pay rent")] :=
  ⟨rfl, rfl⟩

/-- C3 amended: the fired job never re-reads the reminder; it always sends the
message from the armed payload, then deletes the row with the payload's id —
a no-op when the row is already gone — and raises no error either way. -/
theorem C3_fire_always_sends (st : BotState) (chat : Int) (txt ws : String) (rid : Nat) :
    reminder_job st ⟨chat, txt, ws, some rid⟩ =
      ⟨⟨st.db.reminders.filter (fun r => r.id != rid), st.db.people,
        st.db.nextReminderId, st.db.nextPersonId⟩,
       st.jobs,
       st.outbox ++ [(chat, remMsgText ws txt)]⟩ := rfl

/-- C4: evaluating the code at the failing input. An `apk` reminder is created
for Monday 09:00: its row gets id 1 and its armed job is named `apk-1_0`. The
user delete action for id 1 removes the row but cancels only jobs named
`reminder-1`, so the armed apk job survives the delete — the claimed
cancellation does not happen for the `apk` kind. -/
theorem C4_apk_job_survives_delete :
    (finalize_apk_schedule 1 [0] (some (9, 0)) (some "t") [] 0 stEmpty).map
        (fun s =>
          ((reminder_delete_action 1 1 s).db.reminders,
           (reminder_delete_action 1 1 s).jobs.map (fun j => j.name)))
      = Except.ok ([], ["apk-1_0"]) := by
  rfl

/-- C8 counterexample: batch-adding `(@alice, Ally)` and then `(@alice, Aly)`
for the same chat yields TWO rows with the same `(chat_id, handle)` and the
first display name still present — re-adding duplicates instead of replacing. -/
theorem C8_counterexample :
    ((db_add_people_batch (db_add_people_batch (⟨[], [], 1, 1⟩ : Db) 5
        [("@alice", "Ally")]).2 5 [("@alice", "Aly")]).2.people.map
        (fun p => (p.chat_id, p.tg_id, p.nickname)))
      = [(5, "@alice", "Ally"), (5, "@alice", "Aly")] := rfl

/-- `insertPeople` appends exactly one fresh row per pair and advances the id
counter by the number of pairs. -/
theorem insertPeople_people (chat : Int) :
    ∀ (pairs : List (String × String)) (db : Db),
      (insertPeople chat pairs db).people
        = db.people ++ mkPeopleRows db.nextPersonId chat pairs ∧
      (insertPeople chat pairs db).nextPersonId = db.nextPersonId + pairs.length := by
  intro pairs
  induction pairs with
  | nil => intro db; simp [insertPeople, mkPeopleRows]
  | cons p rest ih =>
      intro db
      obtain ⟨tg, nick⟩ := p
      obtain ⟨h1, h2⟩ := ih
        { db with people := db.people ++ [⟨db.nextPersonId, chat, tg, nick⟩],
                  nextPersonId := db.nextPersonId + 1 }
      constructor
      · simp only [insertPeople]
        rw [h1]
        simp [mkPeopleRows]
      · simp only [insertPeople]
        rw [h2]
        simp
        omega

/-- C8 amended: `db_add_people_batch` performs a plain INSERT per pair — the
schema has no uniqueness constraint on `(chat_id, tg_id)` — so it always
appends fresh rows (reporting their count) and never replaces an existing
row's display name. -/
theorem C8_batch_add_never_replaces (db : Db) (chat : Int)
    (pairs : List (String × String)) :
    (db_add_people_batch db chat pairs).1 = pairs.length ∧
    (db_add_people_batch db chat pairs).2.people
      = db.people ++ mkPeopleRows db.nextPersonId chat pairs := by
  cases pairs with
  | nil => simp [db_add_people_batch, mkPeopleRows]
  | cons p rest => exact ⟨rfl, (insertPeople_people chat (p :: rest) db).1⟩

/-- C9 counterexample: running `finalize_general_cycle` with the `gen_time`
scratch field absent raises `TypeError` (`hour, minute = None` fails to
unpack) — no internal-state-lost message is sent and the session is not
returned to `MENU`. -/
theorem C9_counterexample :
    finalize_general_cycle 1 [0] none (some "x") [] 0 stEmpty
      = Except.error "TypeError" := rfl

/-- C9 amended: only the single-date finalize guards missing scratch — with
`sd_date`/`sd_time` absent it replies the internal-state-lost message and
returns the session to `MENU` without raising; the weekly-cycle and apk
finalizes instead raise `TypeError` when their time scratch field is absent. -/
theorem C9_missing_scratch :
    (∀ (chat : Int) (content : String) (now : DT) (st : BotState),
        ¬ pyStrip content.data = [] →
        single_date_got_text chat content none none now st =
          Except.ok ({ st with outbox := st.outbox ++ [(chat, internalLostMsg)] }, MENU)) ∧
    (∀ (chat : Int) (wds : List Nat) (text : Option String) (mids : List Nat)
        (now : Nat) (st : BotState),
        finalize_general_cycle chat wds none text mids now st = Except.error "TypeError") ∧
    (∀ (chat : Int) (wds : List Nat) (text : Option String) (mids : List Nat)
        (now : Nat) (st : BotState),
        finalize_apk_schedule chat wds none text mids now st = Except.error "TypeError") := by
  refine ⟨?_, ?_, ?_⟩
  · intro chat content now st h
    simp only [single_date_got_text]
    rw [if_neg h]
  · intro chat wds text mids now st
    rfl
  · intro chat wds text mids now st
    rfl

/-- Witness for C9 amended: the single-date guard at concrete input. -/
theorem C9_missing_scratch_witness :
    ¬ pyStrip "x".data = [] ∧
    single_date_got_text 1 "x" none none ⟨2025, 1, 1, 0, 0, 0⟩ stEmpty =
      Except.ok ({ stEmpty with outbox := stEmpty.outbox ++ [(1, internalLostMsg)] }, MENU) :=
  ⟨by decide, C9_missing_scratch.1 1 "x" ⟨2025, 1, 1, 0, 0, 0⟩ stEmpty (by decide)⟩

/-- C10: the delete handlers carry no ownership check. The store effect of
`reminder_delete_<id>` and `people_del_<id>` is a pure function of the id —
identical whatever chat issues it — and it removes every row with that id,
including rows belonging to other chats. -/
theorem C10_delete_ignores_chat (c1 c2 : Int) (rid pid : Nat) (st : BotState) :
    (reminder_delete_action c1 rid st).db = (reminder_delete_action c2 rid st).db ∧
    (reminder_delete_action c1 rid st).jobs = (reminder_delete_action c2 rid st).jobs ∧
    (reminder_delete_action c1 rid st).db.reminders
      = st.db.reminders.filter (fun r => r.id != rid) ∧
    (people_del_action c1 pid st).db = (people_del_action c2 pid st).db ∧
    (people_del_action c1 pid st).db.people
      = st.db.people.filter (fun p => p.id != pid) :=
  ⟨rfl, rfl, rfl, rfl, rfl⟩

end TgReminderBot
